import Mathlib

/-!
Shallow embedding of the server-side TCP transport of the `opcua` repository
(`src/server/src/comms/tcp_transport.rs`), covering the handshake state
machine (`process_hello`), chunk processing (`process_chunk`,
`turn_received_chunks_into_message`), the read-loop message dispatch, and
connection termination (`finish`).

External collaborators of the transport (the `opcua-core` framer, chunker,
secure channel, and message handler) are not under `src/`; where they are
needed they are modelled from the specification, each with a doc comment
starting `Modelled from the spec:`.  Machine integers (`UInt32`) are embedded
as `Nat` with explicit `% 2^32` where wraparound matters.
-/

namespace OpcUa

/-- Decidable equality for `Except`, so concrete runs of the fallible
operations can be settled by `decide`. -/
instance {ε α : Type} [DecidableEq ε] [DecidableEq α] :
    DecidableEq (Except ε α) := fun a b =>
  match a, b with
  | Except.error e, Except.error f =>
    if h : e = f then isTrue (by rw [h])
    else isFalse (by intro hh; cases hh; exact h rfl)
  | Except.error _, Except.ok _ => isFalse (by intro hh; cases hh)
  | Except.ok _, Except.error _ => isFalse (by intro hh; cases hh)
  | Except.ok x, Except.ok y =>
    if h : x = y then isTrue (by rw [h])
    else isFalse (by intro hh; cases hh; exact h rfl)

/-- OPC UA status codes used by the transport (subset of `StatusCode`). -/
inductive StatusCode where
  | Good
  | BadCommunicationError
  | BadTcpEndpointUrlInvalid
  | BadProtocolVersionUnsupported
  | BadSequenceNumberInvalid
  | BadUnexpectedError
  | BadConnectionClosed
  | BadTimeout
  | BadTcpMessageTooLarge
  | BadTcpMessageTypeInvalid
  | BadDecodingError
  | BadSecurityChecksFailed
  | BadSecureChannelIdInvalid
  | BadServiceUnsupported
  deriving DecidableEq, Repr

/-- Embedding of `StatusCode::is_bad`: every code modelled here other than `Good` has the
Bad severity bits set. -/
def StatusCode.is_bad : StatusCode → Bool
  | StatusCode.Good => false
  | _ => true

/-- Embedding of `TransportState` (from `comms/transport.rs`): the finite state of one
connection. -/
inductive TransportState where
  | New
  | WaitingHello
  | ProcessMessages
  | Finished (code : StatusCode)
  deriving DecidableEq, Repr

/-- The `u32` modulus: sequence numbers are 32-bit with wraparound mod `2^32`. -/
def u32Mod : Nat := 4294967296

/-- Embedding of the `AcknowledgeMessage` body: protocol version plus the four-size quartet
(the wire `message_header` produced by the external encoder is omitted). -/
structure AcknowledgeMessage where
  protocol_version : Nat
  receive_buffer_size : Nat
  send_buffer_size : Nat
  max_message_size : Nat
  max_chunk_count : Nat
  deriving DecidableEq, Repr

/-- Embedding of the `HelloMessage` body as framed on the wire. -/
structure HelloMessage where
  protocol_version : Nat
  receive_buffer_size : Nat
  send_buffer_size : Nat
  max_message_size : Nat
  max_chunk_count : Nat
  endpoint_url : String
  deriving DecidableEq, Repr

/-- Modelled from the spec: `HelloMessage::is_endpoint_url_valid` (the check
lives in `opcua-core`, not under `src/`): the endpoint URL is valid iff it is
an `opc.tcp://...` URL of at most 4096 bytes. -/
def HelloMessage.is_endpoint_url_valid (h : HelloMessage) : Bool :=
  decide (h.endpoint_url.data.take 10 = String.data "opc.tcp://") &&
  decide (h.endpoint_url.data.length ≤ 4096)

/-- Modelled from the spec: `HelloMessage::is_valid_buffer_sizes` (the check
lives in `opcua-core`, not under `src/`): the receive and send buffer sizes
must each be at least the protocol minimum of 8192 bytes. -/
def HelloMessage.is_valid_buffer_sizes (h : HelloMessage) : Bool :=
  decide (8192 ≤ h.receive_buffer_size) && decide (8192 ≤ h.send_buffer_size)

/-- Source constant `RECEIVE_BUFFER_SIZE = 1024 * 64` in `tcp_transport.rs`. -/
def RECEIVE_BUFFER_SIZE : Nat := 1024 * 64

/-- Source constant `SEND_BUFFER_SIZE = 1024 * 64` in `tcp_transport.rs`. -/
def SEND_BUFFER_SIZE : Nat := 1024 * 64

/-- Source constant `MAX_MESSAGE_SIZE = 1024 * 64` in `tcp_transport.rs`. -/
def MAX_MESSAGE_SIZE : Nat := 1024 * 64

/-- Modelled from the spec: `MAX_CHUNK_COUNT` comes from `opcua-core` (not
under `src/`); the handshake scenario in the spec uses 5 chunks. -/
def MAX_CHUNK_COUNT : Nat := 5

/-- Local constant `server_protocol_version = 0` in `process_hello`. -/
def server_protocol_version : Nat := 0

/-- Embedding of `MessageIsFinalType` of a chunk header. -/
inductive MessageIsFinalType where
  | Intermediate
  | Final
  | FinalError
  deriving DecidableEq, Repr

/-- Embedding of `MessageChunkType` of a chunk header. -/
inductive MessageChunkType where
  | OpenSecureChannel
  | CloseSecureChannel
  | Message
  deriving DecidableEq, Repr

/-- A decoded chunk message header (`is_final` indicator and message type). -/
structure MessageChunkHeader where
  is_final : MessageIsFinalType
  message_type : MessageChunkType
  deriving DecidableEq, Repr

/-- A `MessageChunk` as the spec's data model describes it: header fields,
channel id, the sequence header pair, and an abstract body.  `header_valid`
records whether the raw header bytes decode (`message_header()` is fallible). -/
structure MessageChunk where
  header_valid : Bool
  is_final : MessageIsFinalType
  message_type : MessageChunkType
  channel_id : Nat
  sequence_number : Nat
  request_id : Nat
  body : Nat
  deriving DecidableEq, Repr

/-- Modelled from the spec: `chunk.message_header()` decodes the chunk's
header bytes, failing with `BadDecodingError` on malformed headers. -/
def MessageChunk.message_header (c : MessageChunk) :
    Except StatusCode MessageChunkHeader :=
  if c.header_valid then
    Except.ok { is_final := c.is_final, message_type := c.message_type }
  else
    Except.error StatusCode.BadDecodingError

/-- Messages the transport can deal with on its write channel (subset of
`SupportedMessage`; decoded service requests and responses are abstract). -/
inductive SupportedMessage where
  | Invalid
  | AcknowledgeMessage (ack : AcknowledgeMessage)
  | ErrorMessage (code : StatusCode) (reason : String)
  | Request (id : Nat)
  | Response (id : Nat)
  deriving DecidableEq, Repr

/-- One entry of the write channel: `(request_id, message)` as sent to the
`UnboundedSender<(UInt32, SupportedMessage)>`. -/
abbrev WriteEntry := Nat × SupportedMessage

/-- A framed message extracted by the `MessageReader` (`Message` in
`opcua-core` tcp types). -/
inductive Message where
  | Hello (h : HelloMessage)
  | Acknowledge (a : AcknowledgeMessage)
  | ErrorMessage (code : StatusCode) (reason : String)
  | MessageChunk (c : MessageChunk)
  deriving DecidableEq, Repr

/-- Whether a framed message is a `MessageChunk`. -/
def Message.is_chunk : Message → Bool
  | Message.MessageChunk _ => true
  | _ => false

/-- The transport-local mutable state of `TcpTransport` relevant to the
claims: the state machine, the HELLO-recorded protocol version, the last
decoded sequence number, and the session's `terminated` flag (the session is
1:1 with the transport; `finish` calls `session.set_terminated()`). -/
structure TcpTransport where
  transport_state : TransportState
  client_protocol_version : Nat
  last_received_sequence_number : Nat
  session_terminated : Bool
  deriving DecidableEq, Repr

/-- Embedding of `Transport::is_finished`: the state is `Finished(_)`. -/
def TcpTransport.is_finished (t : TcpTransport) : Bool :=
  match t.transport_state with
  | TransportState.Finished _ => true
  | _ => false

/-- Embedding of `Transport::finish` (`tcp_transport.rs` lines 125-131): if not already
finished, set the state to `Finished(status_code)` and mark the session
terminated; otherwise do nothing. -/
def TcpTransport.finish (t : TcpTransport) (status_code : StatusCode) :
    TcpTransport :=
  if t.is_finished then t
  else { t with transport_state := TransportState.Finished status_code,
                session_terminated := true }

/-- Embedding of `TcpTransport::process_hello` (`tcp_transport.rs` lines 609-646).  The
result is the transport after the call, the messages pushed onto the write
channel, and the Rust `Result<(), StatusCode>`.  Each early `return Err`
hands back the untouched transport, mirroring the order of statements in the
source: all three validations precede any mutation or send. -/
def process_hello (t : TcpTransport) (hello : HelloMessage) :
    TcpTransport × List WriteEntry × Except StatusCode Unit :=
  if !hello.is_endpoint_url_valid then
    (t, [], Except.error StatusCode.BadTcpEndpointUrlInvalid)
  else if !hello.is_valid_buffer_sizes then
    (t, [], Except.error StatusCode.BadCommunicationError)
  else if server_protocol_version < hello.protocol_version then
    (t, [], Except.error StatusCode.BadProtocolVersionUnsupported)
  else
    let acknowledge : AcknowledgeMessage :=
      { protocol_version := server_protocol_version
        receive_buffer_size := RECEIVE_BUFFER_SIZE
        send_buffer_size := SEND_BUFFER_SIZE
        max_message_size := MAX_MESSAGE_SIZE
        max_chunk_count := MAX_CHUNK_COUNT }
    let t1 := { t with transport_state := TransportState.ProcessMessages,
                       client_protocol_version := hello.protocol_version }
    (t1, [(0, SupportedMessage.AcknowledgeMessage acknowledge)], Except.ok ())

/-- The sequence header pair carried by `ChunkInfo` (`sequence_number`,
`request_id`); obtained by decoding a chunk against the secure channel. -/
structure ChunkInfo where
  sequence_number : Nat
  request_id : Nat
  deriving DecidableEq, Repr

/-- The external collaborators `process_chunk` calls into, all of which live
outside `src/` (`opcua-core`'s `SecureChannel`, `Chunker::decode`,
`SecureChannelService`, and the server's `MessageHandler`).  They are kept
abstract: each theorem quantifies over them or pins them by hypothesis. -/
structure ChunkEnv where
  verify_and_remove_security : MessageChunk → Except StatusCode MessageChunk
  chunk_info : MessageChunk → Except StatusCode ChunkInfo
  verify_header : MessageChunk → Except StatusCode Unit
  decode : List MessageChunk → Except StatusCode SupportedMessage
  open_secure_channel : Nat → SupportedMessage → Except StatusCode SupportedMessage
  close_secure_channel : SupportedMessage → Except StatusCode SupportedMessage
  handle_message : Nat → SupportedMessage → Except StatusCode (Option SupportedMessage)

/-- Modelled from the spec: the walk of `Chunker::validate_chunks` (in
`opcua-core`, not under `src/`).  `expected` is the running counter,
`last_seen` the sequence number of the last validated chunk.  Each chunk's
security header must pass `verify_header`, its `chunk_info` must decode, and
its sequence number must equal the running counter, which advances by one
modulo `2^32`; a mismatch fails with `BadSequenceNumberInvalid`. -/
def validate_chunks_go (env : ChunkEnv) (expected last_seen : Nat)
    (chunks : List MessageChunk) : Except StatusCode Nat :=
  match chunks with
  | [] => Except.ok last_seen
  | c :: rest =>
    match env.verify_header c with
    | Except.error e => Except.error e
    | Except.ok _ =>
      match env.chunk_info c with
      | Except.error e => Except.error e
      | Except.ok info =>
        if info.sequence_number = expected then
          validate_chunks_go env ((expected + 1) % u32Mod) info.sequence_number rest
        else
          Except.error StatusCode.BadSequenceNumberInvalid

/-- Modelled from the spec: `Chunker::validate_chunks(expected_seq_start,
secure_channel, chunks)` returns the sequence number of the last validated
chunk (for an empty list, the wrapping predecessor of the start). -/
def validate_chunks (env : ChunkEnv) (start : Nat)
    (chunks : List MessageChunk) : Except StatusCode Nat :=
  validate_chunks_go env start ((start + u32Mod - 1) % u32Mod) chunks

/-- Embedding of `TcpTransport::turn_received_chunks_into_message` (`tcp_transport.rs`
lines 648-654): validate the chunks starting at
`last_received_sequence_number + 1` (32-bit wraparound), store the returned
sequence number on success, then decode.  On validation failure the transport
is unchanged; on decode failure the stored sequence number remains updated. -/
def turn_received_chunks_into_message (env : ChunkEnv) (t : TcpTransport)
    (chunks : List MessageChunk) :
    TcpTransport × Except StatusCode SupportedMessage :=
  match validate_chunks env ((t.last_received_sequence_number + 1) % u32Mod) chunks with
  | Except.error e => (t, Except.error e)
  | Except.ok last =>
    ({ t with last_received_sequence_number := last }, env.decode chunks)

/-- The outcome of one `process_chunk` call: a Rust `Ok(())` together with
the messages sent on the write channel, an `Err(code)` (the transport may
still have been mutated before the error), or the `panic!` on intermediate
chunks. -/
inductive ChunkOutcome where
  | ok (t : TcpTransport) (sent : List WriteEntry)
  | err (t : TcpTransport) (code : StatusCode)
  | panicked
  deriving DecidableEq, Repr

/-- Embedding of `TcpTransport::process_chunk` (`tcp_transport.rs` lines 656-703): decode
the header; `panic!` on `Intermediate`; silently drop `FinalError`; verify
and remove security; read the chunk info; assemble the request (updating the
sequence counter); dispatch on the message type; send `(request_id,
response)`. -/
def process_chunk (env : ChunkEnv) (t : TcpTransport) (chunk : MessageChunk) :
    ChunkOutcome :=
  match chunk.message_header with
  | Except.error e => ChunkOutcome.err t e
  | Except.ok hdr =>
    if hdr.is_final = MessageIsFinalType.Intermediate then
      ChunkOutcome.panicked
    else if hdr.is_final = MessageIsFinalType.FinalError then
      ChunkOutcome.ok t []
    else
      match env.verify_and_remove_security chunk with
      | Except.error e => ChunkOutcome.err t e
      | Except.ok vchunk =>
        match env.chunk_info vchunk with
        | Except.error e => ChunkOutcome.err t e
        | Except.ok info =>
          match turn_received_chunks_into_message env t [vchunk] with
          | (t1, Except.error e) => ChunkOutcome.err t1 e
          | (t1, Except.ok request) =>
            match hdr.message_type with
            | MessageChunkType.OpenSecureChannel =>
              match env.open_secure_channel t1.client_protocol_version request with
              | Except.error e => ChunkOutcome.err t1 e
              | Except.ok response => ChunkOutcome.ok t1 [(info.request_id, response)]
            | MessageChunkType.CloseSecureChannel =>
              match env.close_secure_channel request with
              | Except.error e => ChunkOutcome.err t1 e
              | Except.ok response => ChunkOutcome.ok t1 [(info.request_id, response)]
            | MessageChunkType.Message =>
              match env.handle_message info.request_id request with
              | Except.error e => ChunkOutcome.err t1 e
              | Except.ok none => ChunkOutcome.ok t1 []
              | Except.ok (some response) => ChunkOutcome.ok t1 [(info.request_id, response)]

/-- The outcome of the read loop handling one framed message. -/
inductive StepOutcome where
  | next (t : TcpTransport) (sent : List WriteEntry)
  | panicked
  deriving DecidableEq, Repr

/-- The per-message dispatch of the reading loop
(`spawn_reading_loop_task`, `tcp_transport.rs` lines 363-400): dispatch on
the transport state, run `process_hello` / `process_chunk`, and if the
resulting session status code is bad, `finish` the transport with it. -/
def read_loop_handle (env : ChunkEnv) (t : TcpTransport) (m : Message) :
    StepOutcome :=
  match t.transport_state with
  | TransportState.WaitingHello =>
    match m with
    | Message.Hello h =>
      match process_hello t h with
      | (t1, sent, Except.ok _) => StepOutcome.next t1 sent
      | (t1, sent, Except.error e) =>
        StepOutcome.next (if e.is_bad then t1.finish e else t1) sent
    | _ => StepOutcome.next (t.finish StatusCode.BadCommunicationError) []
  | TransportState.ProcessMessages =>
    match m with
    | Message.MessageChunk c =>
      match process_chunk env t c with
      | ChunkOutcome.ok t1 sent => StepOutcome.next t1 sent
      | ChunkOutcome.err t1 e =>
        StepOutcome.next (if e.is_bad then t1.finish e else t1) []
      | ChunkOutcome.panicked => StepOutcome.panicked
    | _ => StepOutcome.next (t.finish StatusCode.BadCommunicationError) []
  | _ => StepOutcome.next (t.finish StatusCode.BadUnexpectedError) []

/-- The reading loop's terminating error path (`spawn_reading_loop_task`,
`tcp_transport.rs` lines 427-435): on `(transport, status_code)` the task
only calls `finish(status_code)` and exits; the list of frames it writes to
the socket is empty. -/
def read_loop_on_error (t : TcpTransport) (status_code : StatusCode) :
    TcpTransport × List WriteEntry :=
  (t.finish status_code, [])

/-- Concrete transport fresh out of `run`: awaiting the HELLO. -/
def tWaiting : TcpTransport :=
  { transport_state := TransportState.WaitingHello
    client_protocol_version := 0
    last_received_sequence_number := 0
    session_terminated := false }

/-- Concrete transport after a successful handshake. -/
def tProcess : TcpTransport :=
  { tWaiting with transport_state := TransportState.ProcessMessages }

/-- Concrete environment in which security verification is the identity, the
chunk info is read off the chunk's own sequence header, decoding yields an
abstract request, and the message handler retains every request (`None`). -/
def envW : ChunkEnv :=
  { verify_and_remove_security := fun c => Except.ok c
    chunk_info := fun c =>
      Except.ok { sequence_number := c.sequence_number, request_id := c.request_id }
    verify_header := fun _ => Except.ok ()
    decode := fun _ => Except.ok (SupportedMessage.Request 0)
    open_secure_channel := fun _ _ => Except.ok (SupportedMessage.Response 1)
    close_secure_channel := fun _ => Except.ok (SupportedMessage.Response 2)
    handle_message := fun _ _ => Except.ok none }

/-- Concrete valid HELLO (the spec's handshake happy-path scenario). -/
def helloW : HelloMessage :=
  { protocol_version := 0
    receive_buffer_size := 65536
    send_buffer_size := 65536
    max_message_size := 65536
    max_chunk_count := 5
    endpoint_url := "opc.tcp://h:4855" }

/-- Concrete HELLO that is valid except for `protocol_version = 1`. -/
def helloV1 : HelloMessage := { helloW with protocol_version := 1 }

/-- Concrete HELLO that is valid except for `receive_buffer_size = 8191`. -/
def helloSmallBuf : HelloMessage := { helloW with receive_buffer_size := 8191 }

/-- Concrete HELLO with `protocol_version = 1` and `receive_buffer_size =
8191` at once. -/
def helloBoth : HelloMessage :=
  { helloW with protocol_version := 1, receive_buffer_size := 8191 }

/-- Concrete final MSG chunk with a given sequence number. -/
def chunkSeq (n : Nat) : MessageChunk :=
  { header_valid := true
    is_final := MessageIsFinalType.Final
    message_type := MessageChunkType.Message
    channel_id := 1
    sequence_number := n
    request_id := 7
    body := 0 }

/-- Concrete intermediate chunk. -/
def chunkInter : MessageChunk :=
  { chunkSeq 1 with is_final := MessageIsFinalType.Intermediate }

/-- Concrete final-error chunk. -/
def chunkFinalErr : MessageChunk :=
  { chunkSeq 1 with is_final := MessageIsFinalType.FinalError }

/-- C1: a HELLO received in state `WaitingHello` whose endpoint URL, buffer
sizes and protocol version pass validation makes `process_hello` return `Ok`,
transition the transport to `ProcessMessages`, record the hello's protocol
version as `client_protocol_version`, and enqueue exactly one
`AcknowledgeMessage` with protocol version 0 and the configured
receive/send/max-message/max-chunk quartet onto the write channel. -/
theorem process_hello_valid_transitions_and_acks (env : ChunkEnv)
    (t : TcpTransport) (h : HelloMessage)
    (hstate : t.transport_state = TransportState.WaitingHello)
    (hurl : h.is_endpoint_url_valid = true)
    (hbuf : h.is_valid_buffer_sizes = true)
    (hver : h.protocol_version ≤ server_protocol_version) :
    process_hello t h =
      ({ t with transport_state := TransportState.ProcessMessages,
                client_protocol_version := h.protocol_version },
       [(0, SupportedMessage.AcknowledgeMessage
          { protocol_version := server_protocol_version
            receive_buffer_size := RECEIVE_BUFFER_SIZE
            send_buffer_size := SEND_BUFFER_SIZE
            max_message_size := MAX_MESSAGE_SIZE
            max_chunk_count := MAX_CHUNK_COUNT })],
       Except.ok ()) ∧
    read_loop_handle env t (Message.Hello h) =
      StepOutcome.next
        { t with transport_state := TransportState.ProcessMessages,
                 client_protocol_version := h.protocol_version }
        [(0, SupportedMessage.AcknowledgeMessage
          { protocol_version := server_protocol_version
            receive_buffer_size := RECEIVE_BUFFER_SIZE
            send_buffer_size := SEND_BUFFER_SIZE
            max_message_size := MAX_MESSAGE_SIZE
            max_chunk_count := MAX_CHUNK_COUNT })] := by
  have hv : ¬ server_protocol_version < h.protocol_version := Nat.not_lt.mpr hver
  have hph : process_hello t h =
      ({ t with transport_state := TransportState.ProcessMessages,
                client_protocol_version := h.protocol_version },
       [(0, SupportedMessage.AcknowledgeMessage
          { protocol_version := server_protocol_version
            receive_buffer_size := RECEIVE_BUFFER_SIZE
            send_buffer_size := SEND_BUFFER_SIZE
            max_message_size := MAX_MESSAGE_SIZE
            max_chunk_count := MAX_CHUNK_COUNT })],
       Except.ok ()) := by
    simp [process_hello, hurl, hbuf, hv]
  exact ⟨hph, by simp [read_loop_handle, hstate, hph]⟩

/-- C1 witness: the spec's handshake happy-path HELLO on a fresh transport. -/
theorem process_hello_valid_witness :
    process_hello tWaiting helloW =
      ({ tWaiting with transport_state := TransportState.ProcessMessages,
                       client_protocol_version := helloW.protocol_version },
       [(0, SupportedMessage.AcknowledgeMessage
          { protocol_version := server_protocol_version
            receive_buffer_size := RECEIVE_BUFFER_SIZE
            send_buffer_size := SEND_BUFFER_SIZE
            max_message_size := MAX_MESSAGE_SIZE
            max_chunk_count := MAX_CHUNK_COUNT })],
       Except.ok ()) :=
  (process_hello_valid_transitions_and_acks envW tWaiting helloW
    (by decide) (by decide) (by decide) (by decide)).1

/-- C10: `process_hello` is atomic on error: a HELLO failing any of the three
validations yields `Err(code)` with the transport handed back untouched (state
and `client_protocol_version` unchanged) and nothing enqueued on the write
channel. -/
theorem process_hello_atomic_on_error (t : TcpTransport) (h : HelloMessage)
    (hfail : h.is_endpoint_url_valid = false ∨ h.is_valid_buffer_sizes = false ∨
             server_protocol_version < h.protocol_version) :
    ∃ e, process_hello t h = (t, [], Except.error e) := by
  by_cases h1 : h.is_endpoint_url_valid = true
  · by_cases h2 : h.is_valid_buffer_sizes = true
    · have h3 : server_protocol_version < h.protocol_version := by
        rcases hfail with hf | hf | hf
        · rw [h1] at hf; cases hf
        · rw [h2] at hf; cases hf
        · exact hf
      exact ⟨StatusCode.BadProtocolVersionUnsupported,
        by simp [process_hello, h1, h2, h3]⟩
    · rw [Bool.not_eq_true] at h2
      exact ⟨StatusCode.BadCommunicationError, by simp [process_hello, h1, h2]⟩
  · rw [Bool.not_eq_true] at h1
    exact ⟨StatusCode.BadTcpEndpointUrlInvalid, by simp [process_hello, h1]⟩

/-- C10 witness: a HELLO with an undersized receive buffer leaves the fresh
transport untouched and enqueues nothing. -/
theorem process_hello_atomic_on_error_witness :
    ∃ e, process_hello tWaiting helloSmallBuf =
      (tWaiting, [], Except.error e) :=
  process_hello_atomic_on_error tWaiting helloSmallBuf
    (Or.inr (Or.inl (by decide)))

/-- C3: `finish(c)` is idempotent and `Finished` is absorbing: on a transport
not yet finished it sets the state to `Finished(c)` and marks the session
terminated, and a second `finish` with any code changes nothing; on a
transport already in `Finished(c1)` it changes nothing at all. -/
theorem finish_idempotent_absorbing (t : TcpTransport) (c c2 : StatusCode) :
    (t.is_finished = false →
      (t.finish c).transport_state = TransportState.Finished c ∧
      (t.finish c).session_terminated = true ∧
      (t.finish c).finish c2 = t.finish c) ∧
    (∀ c1, t.transport_state = TransportState.Finished c1 → t.finish c2 = t) := by
  constructor
  · intro hnf
    have hfin : t.finish c =
        { t with transport_state := TransportState.Finished c,
                 session_terminated := true } := by
      simp [TcpTransport.finish, hnf]
    refine ⟨by rw [hfin], by rw [hfin], ?_⟩
    rw [hfin]
    simp [TcpTransport.finish, TcpTransport.is_finished]
  · intro c1 h1
    have hf : t.is_finished = true := by simp [TcpTransport.is_finished, h1]
    simp [TcpTransport.finish, hf]

/-- C3 witness: finishing a fresh transport once and again, and finishing an
already-finished transport. -/
theorem finish_idempotent_absorbing_witness :
    ((tWaiting.finish StatusCode.BadTimeout).transport_state =
       TransportState.Finished StatusCode.BadTimeout ∧
     (tWaiting.finish StatusCode.BadTimeout).session_terminated = true ∧
     (tWaiting.finish StatusCode.BadTimeout).finish StatusCode.BadCommunicationError =
       tWaiting.finish StatusCode.BadTimeout) ∧
    ({ tWaiting with transport_state :=
        TransportState.Finished StatusCode.BadTimeout }.finish
          StatusCode.BadCommunicationError =
      { tWaiting with transport_state :=
        TransportState.Finished StatusCode.BadTimeout }) :=
  ⟨(finish_idempotent_absorbing tWaiting StatusCode.BadTimeout
      StatusCode.BadCommunicationError).1 (by decide),
   (finish_idempotent_absorbing
      { tWaiting with transport_state := TransportState.Finished StatusCode.BadTimeout }
      StatusCode.BadTimeout StatusCode.BadCommunicationError).2
      StatusCode.BadTimeout (by decide)⟩

/-- C4: a chunk whose decoded message header marks it `Intermediate` makes
`process_chunk` hit the documented `panic!` path, for every environment: no
status-code error is returned and nothing is buffered. -/
theorem process_chunk_intermediate_panics (env : ChunkEnv) (t : TcpTransport)
    (chunk : MessageChunk)
    (hhv : chunk.header_valid = true)
    (hint : chunk.is_final = MessageIsFinalType.Intermediate) :
    process_chunk env t chunk = ChunkOutcome.panicked := by
  simp [process_chunk, MessageChunk.message_header, hhv, hint]

/-- C4 witness: a concrete intermediate chunk panics. -/
theorem process_chunk_intermediate_panics_witness :
    process_chunk envW tProcess chunkInter = ChunkOutcome.panicked :=
  process_chunk_intermediate_panics envW tProcess chunkInter
    (by decide) (by decide)

/-- C9: a chunk whose decoded message header marks it `FinalError` is
silently dropped: `process_chunk` returns `Ok` with the transport unchanged
and nothing enqueued — for every environment, so neither security
verification nor decoding is consulted — and the read loop does not finish
the transport because of it. -/
theorem process_chunk_final_error_silent_drop (env : ChunkEnv)
    (t : TcpTransport) (chunk : MessageChunk)
    (hhv : chunk.header_valid = true)
    (hfe : chunk.is_final = MessageIsFinalType.FinalError) :
    process_chunk env t chunk = ChunkOutcome.ok t [] ∧
    (t.transport_state = TransportState.ProcessMessages →
      read_loop_handle env t (Message.MessageChunk chunk) =
        StepOutcome.next t []) := by
  have hpc : process_chunk env t chunk = ChunkOutcome.ok t [] := by
    simp [process_chunk, MessageChunk.message_header, hhv, hfe]
  exact ⟨hpc, fun hstate => by simp [read_loop_handle, hstate, hpc]⟩

/-- C9 witness: a concrete final-error chunk is dropped and the loop keeps
the transport in `ProcessMessages`. -/
theorem process_chunk_final_error_silent_drop_witness :
    process_chunk envW tProcess chunkFinalErr = ChunkOutcome.ok tProcess [] ∧
    read_loop_handle envW tProcess (Message.MessageChunk chunkFinalErr) =
      StepOutcome.next tProcess [] :=
  ⟨(process_chunk_final_error_silent_drop envW tProcess chunkFinalErr
      (by decide) (by decide)).1,
   (process_chunk_final_error_silent_drop envW tProcess chunkFinalErr
      (by decide) (by decide)).2 (by decide)⟩

/-- C6 counterexample: the claim quantifies over every HELLO with
`protocol_version = 1`, but a HELLO that also carries
`receive_buffer_size = 8191` is rejected by the earlier buffer-size check
with `BadCommunicationError`, not `BadProtocolVersionUnsupported`. -/
theorem hello_version_reject_counterexample :
    helloBoth.protocol_version = 1 ∧
    (process_hello tWaiting helloBoth).2.2 =
      Except.error StatusCode.BadCommunicationError ∧
    (Except.error StatusCode.BadCommunicationError :
        Except StatusCode Unit) ≠
      Except.error StatusCode.BadProtocolVersionUnsupported := by
  decide

/-- C6 amended: for a HELLO with a valid endpoint URL, if the buffer sizes
are valid and `protocol_version = 1` then `process_hello` fails with
`BadProtocolVersionUnsupported`; if instead `receive_buffer_size = 8191`
then it fails with `BadCommunicationError`; in each case the read loop
finishes the transport with that code. -/
theorem process_hello_boundary_rejects (env : ChunkEnv) (t : TcpTransport)
    (h : HelloMessage)
    (hstate : t.transport_state = TransportState.WaitingHello)
    (hurl : h.is_endpoint_url_valid = true) :
    (h.is_valid_buffer_sizes = true → h.protocol_version = 1 →
      (process_hello t h).2.2 =
        Except.error StatusCode.BadProtocolVersionUnsupported ∧
      read_loop_handle env t (Message.Hello h) =
        StepOutcome.next (t.finish StatusCode.BadProtocolVersionUnsupported) [] ∧
      (t.finish StatusCode.BadProtocolVersionUnsupported).transport_state =
        TransportState.Finished StatusCode.BadProtocolVersionUnsupported) ∧
    (h.receive_buffer_size = 8191 →
      (process_hello t h).2.2 = Except.error StatusCode.BadCommunicationError ∧
      read_loop_handle env t (Message.Hello h) =
        StepOutcome.next (t.finish StatusCode.BadCommunicationError) [] ∧
      (t.finish StatusCode.BadCommunicationError).transport_state =
        TransportState.Finished StatusCode.BadCommunicationError) := by
  have hnf : t.is_finished = false := by
    simp [TcpTransport.is_finished, hstate]
  constructor
  · intro hbuf hver
    have hlt : server_protocol_version < h.protocol_version := by
      rw [hver]; decide
    have hph : process_hello t h =
        (t, [], Except.error StatusCode.BadProtocolVersionUnsupported) := by
      simp [process_hello, hurl, hbuf, hlt]
    refine ⟨by rw [hph], by simp [read_loop_handle, hstate, hph, StatusCode.is_bad], ?_⟩
    simp [TcpTransport.finish, hnf]
  · intro hrecv
    have hbuf : h.is_valid_buffer_sizes = false := by
      simp [HelloMessage.is_valid_buffer_sizes, hrecv]
    have hph : process_hello t h =
        (t, [], Except.error StatusCode.BadCommunicationError) := by
      simp [process_hello, hurl, hbuf]
    refine ⟨by rw [hph], by simp [read_loop_handle, hstate, hph, StatusCode.is_bad], ?_⟩
    simp [TcpTransport.finish, hnf]

/-- C6 amended witness: the two boundary HELLOs on a fresh transport. -/
theorem process_hello_boundary_rejects_witness :
    ((process_hello tWaiting helloV1).2.2 =
       Except.error StatusCode.BadProtocolVersionUnsupported ∧
     (process_hello tWaiting helloSmallBuf).2.2 =
       Except.error StatusCode.BadCommunicationError) :=
  ⟨((process_hello_boundary_rejects envW tWaiting helloV1
      (by decide) (by decide)).1 (by decide) (by decide)).1,
   ((process_hello_boundary_rejects envW tWaiting helloSmallBuf
      (by decide) (by decide)).2 (by decide)).1⟩

/-- C8 counterexample: on the terminating error path the server emits no
frame at all before the socket closes — in particular no `ErrorMessage`
frame — it only transitions to `Finished(code)`. -/
theorem no_error_frame_counterexample :
    (read_loop_on_error tWaiting StatusCode.BadCommunicationError).2 = [] ∧
    (read_loop_on_error tWaiting
        StatusCode.BadCommunicationError).1.transport_state =
      TransportState.Finished StatusCode.BadCommunicationError := by
  decide

/-- C8 amended: on a Bad status that terminates the connection, the server
finishes the transport — state `Finished(code)`, session terminated — and
writes nothing further to the socket: no `ErrorMessage` frame is emitted. -/
theorem finish_emits_no_error_frame (t : TcpTransport) (c : StatusCode)
    (hbad : c.is_bad = true) (hnf : t.is_finished = false) :
    (read_loop_on_error t c).1.transport_state = TransportState.Finished c ∧
    (read_loop_on_error t c).1.session_terminated = true ∧
    (read_loop_on_error t c).2 = [] := by
  simp [read_loop_on_error, TcpTransport.finish, hnf]

/-- Helper: `turn_received_chunks_into_message` only ever updates the
sequence counter; the transport state is untouched. -/
theorem turn_received_state_eq (env : ChunkEnv) (t : TcpTransport)
    (chunks : List MessageChunk) :
    (turn_received_chunks_into_message env t chunks).1.transport_state =
      t.transport_state := by
  unfold turn_received_chunks_into_message
  split
  · rfl
  · rfl

/-- Helper: pointwise form of `turn_received_state_eq` for a known result
pair. -/
theorem turn_pair_state (env : ChunkEnv) (t : TcpTransport)
    (chunks : List MessageChunk) (t1 : TcpTransport)
    (r : Except StatusCode SupportedMessage)
    (h : turn_received_chunks_into_message env t chunks = (t1, r)) :
    t1.transport_state = t.transport_state := by
  have hs := turn_received_state_eq env t chunks
  rw [h] at hs
  exact hs

/-- Helper: `process_chunk` never changes the transport state (only `finish`
in the read loop does), and a successful call sends at most one entry. -/
theorem process_chunk_invariants (env : ChunkEnv) (t : TcpTransport)
    (chunk : MessageChunk) :
    (∀ t1 sent, process_chunk env t chunk = ChunkOutcome.ok t1 sent →
       t1.transport_state = t.transport_state ∧ sent.length ≤ 1) ∧
    (∀ t1 e, process_chunk env t chunk = ChunkOutcome.err t1 e →
       t1.transport_state = t.transport_state) := by
  constructor
  · intro t1 sent hok
    unfold process_chunk at hok
    repeat' split at hok
    all_goals cases hok
    all_goals refine ⟨?_, by simp⟩
    all_goals
      first
      | rfl
      | exact turn_pair_state _ _ _ _ _ (by assumption)
  · intro t1 e herr
    unfold process_chunk at herr
    repeat' split at herr
    all_goals cases herr
    all_goals
      first
      | rfl
      | exact turn_pair_state _ _ _ _ _ (by assumption)

/-- Helper: single-chunk sequence-number law of `process_chunk`.  For a
header-valid `Final` chunk whose security verification, header check and
chunk info succeed: acceptance forces the chunk's sequence number to be
`last_received_sequence_number + 1 (mod 2^32)` and stores it, and a mismatch
makes `process_chunk` fail with `BadSequenceNumberInvalid` leaving the
transport untouched. -/
theorem process_chunk_seq_step (env : ChunkEnv) (t : TcpTransport)
    (chunk v : MessageChunk) (info : ChunkInfo)
    (hhv : chunk.header_valid = true)
    (hf : chunk.is_final = MessageIsFinalType.Final)
    (hv : env.verify_and_remove_security chunk = Except.ok v)
    (hh : env.verify_header v = Except.ok ())
    (hi : env.chunk_info v = Except.ok info) :
    (∀ t1 sent, process_chunk env t chunk = ChunkOutcome.ok t1 sent →
       info.sequence_number = (t.last_received_sequence_number + 1) % u32Mod ∧
       t1.last_received_sequence_number = info.sequence_number) ∧
    (info.sequence_number ≠ (t.last_received_sequence_number + 1) % u32Mod →
       process_chunk env t chunk =
         ChunkOutcome.err t StatusCode.BadSequenceNumberInvalid) := by
  have hval : validate_chunks env ((t.last_received_sequence_number + 1) % u32Mod) [v] =
      if info.sequence_number = (t.last_received_sequence_number + 1) % u32Mod
      then Except.ok info.sequence_number
      else Except.error StatusCode.BadSequenceNumberInvalid := by
    by_cases hseq : info.sequence_number = (t.last_received_sequence_number + 1) % u32Mod
    · simp [validate_chunks, validate_chunks_go, hh, hi, hseq]
    · simp [validate_chunks, validate_chunks_go, hh, hi, hseq]
  constructor
  · intro t1 sent hok
    by_cases hseq : info.sequence_number = (t.last_received_sequence_number + 1) % u32Mod
    · refine ⟨hseq, ?_⟩
      have hturn : turn_received_chunks_into_message env t [v] =
          ({ t with last_received_sequence_number := info.sequence_number },
           env.decode [v]) := by
        simp [turn_received_chunks_into_message, hval, hseq]
      cases hdec : env.decode [v] with
      | error e =>
        simp [process_chunk, MessageChunk.message_header, hhv, hf, hv, hi,
              hturn, hdec] at hok
      | ok request =>
        cases hmt : chunk.message_type with
        | OpenSecureChannel =>
          cases hosc : env.open_secure_channel t.client_protocol_version request with
          | error e =>
            simp [process_chunk, MessageChunk.message_header, hhv, hf, hv, hi,
                  hturn, hdec, hmt, hosc] at hok
          | ok response =>
            simp [process_chunk, MessageChunk.message_header, hhv, hf, hv, hi,
                  hturn, hdec, hmt, hosc] at hok
            obtain ⟨h1, _⟩ := hok
            rw [← h1]
        | CloseSecureChannel =>
          cases hcsc : env.close_secure_channel request with
          | error e =>
            simp [process_chunk, MessageChunk.message_header, hhv, hf, hv, hi,
                  hturn, hdec, hmt, hcsc] at hok
          | ok response =>
            simp [process_chunk, MessageChunk.message_header, hhv, hf, hv, hi,
                  hturn, hdec, hmt, hcsc] at hok
            obtain ⟨h1, _⟩ := hok
            rw [← h1]
        | Message =>
          cases hhm : env.handle_message info.request_id request with
          | error e =>
            simp [process_chunk, MessageChunk.message_header, hhv, hf, hv, hi,
                  hturn, hdec, hmt, hhm] at hok
          | ok o =>
            cases o with
            | none =>
              simp [process_chunk, MessageChunk.message_header, hhv, hf, hv, hi,
                    hturn, hdec, hmt, hhm] at hok
              obtain ⟨h1, _⟩ := hok
              rw [← h1]
            | some response =>
              simp [process_chunk, MessageChunk.message_header, hhv, hf, hv, hi,
                    hturn, hdec, hmt, hhm] at hok
              obtain ⟨h1, _⟩ := hok
              rw [← h1]
    · have hturn : turn_received_chunks_into_message env t [v] =
          (t, Except.error StatusCode.BadSequenceNumberInvalid) := by
        simp [turn_received_chunks_into_message, hval, hseq]
      simp [process_chunk, MessageChunk.message_header, hhv, hf, hv, hi,
            hturn] at hok
  · intro hne
    have hturn : turn_received_chunks_into_message env t [v] =
        (t, Except.error StatusCode.BadSequenceNumberInvalid) := by
      simp [turn_received_chunks_into_message, hval, hne]
    simp [process_chunk, MessageChunk.message_header, hhv, hf, hv, hi, hturn]

/-- C2: sequence numbers of accepted chunks are consecutive modulo `2^32`.
For two chunks accepted one after the other by `process_chunk` (under the
stated success of the external verification steps), the second chunk's
sequence number equals the first's plus one mod `2^32`; and a chunk whose
sequence number differs from `last_received_sequence_number + 1 (mod 2^32)`
makes `process_chunk` fail with `BadSequenceNumberInvalid`, upon which the
read loop finishes the transport into
`Finished(BadSequenceNumberInvalid)`. -/
theorem chunk_sequence_numbers_consecutive (env : ChunkEnv) (t : TcpTransport)
    (ca cb va vb : MessageChunk) (ia ib : ChunkInfo)
    (hhva : ca.header_valid = true)
    (hfa : ca.is_final = MessageIsFinalType.Final)
    (hva : env.verify_and_remove_security ca = Except.ok va)
    (hha : env.verify_header va = Except.ok ())
    (hia : env.chunk_info va = Except.ok ia)
    (hhvb : cb.header_valid = true)
    (hfb : cb.is_final = MessageIsFinalType.Final)
    (hvb : env.verify_and_remove_security cb = Except.ok vb)
    (hhb : env.verify_header vb = Except.ok ())
    (hib : env.chunk_info vb = Except.ok ib) :
    (∀ t1 s1 t2 s2, process_chunk env t ca = ChunkOutcome.ok t1 s1 →
       process_chunk env t1 cb = ChunkOutcome.ok t2 s2 →
       ib.sequence_number = (ia.sequence_number + 1) % u32Mod) ∧
    (ia.sequence_number ≠ (t.last_received_sequence_number + 1) % u32Mod →
       process_chunk env t ca =
         ChunkOutcome.err t StatusCode.BadSequenceNumberInvalid ∧
       (t.transport_state = TransportState.ProcessMessages →
          read_loop_handle env t (Message.MessageChunk ca) =
            StepOutcome.next (t.finish StatusCode.BadSequenceNumberInvalid) [] ∧
          (t.finish StatusCode.BadSequenceNumberInvalid).transport_state =
            TransportState.Finished StatusCode.BadSequenceNumberInvalid)) := by
  constructor
  · intro t1 s1 t2 s2 hok1 hok2
    obtain ⟨_, hl1⟩ :=
      (process_chunk_seq_step env t ca va ia hhva hfa hva hha hia).1 t1 s1 hok1
    obtain ⟨he2, _⟩ :=
      (process_chunk_seq_step env t1 cb vb ib hhvb hfb hvb hhb hib).1 t2 s2 hok2
    rw [he2, hl1]
  · intro hne
    have herr :=
      (process_chunk_seq_step env t ca va ia hhva hfa hva hha hia).2 hne
    refine ⟨herr, fun hstate => ?_⟩
    have hnf : t.is_finished = false := by
      simp [TcpTransport.is_finished, hstate]
    exact ⟨by simp [read_loop_handle, hstate, herr, StatusCode.is_bad],
           by simp [TcpTransport.finish, hnf]⟩

/-- C2 witness: two consecutive chunks (sequence numbers 1 then 2) on a fresh
channel, and a chunk with sequence number 1 arriving when 5 was expected. -/
theorem chunk_sequence_numbers_consecutive_witness :
    (⟨2, 7⟩ : ChunkInfo).sequence_number =
      ((⟨1, 7⟩ : ChunkInfo).sequence_number + 1) % u32Mod ∧
    process_chunk envW { tProcess with last_received_sequence_number := 4 }
        (chunkSeq 1) =
      ChunkOutcome.err { tProcess with last_received_sequence_number := 4 }
        StatusCode.BadSequenceNumberInvalid :=
  ⟨(chunk_sequence_numbers_consecutive envW tProcess (chunkSeq 1) (chunkSeq 2)
      (chunkSeq 1) (chunkSeq 2) ⟨1, 7⟩ ⟨2, 7⟩ (by decide) (by decide)
      (by decide) (by decide) (by decide) (by decide) (by decide) (by decide)
      (by decide) (by decide)).1
      { tProcess with last_received_sequence_number := 1 } []
      { tProcess with last_received_sequence_number := 2 } []
      (by decide) (by decide),
   ((chunk_sequence_numbers_consecutive envW
      { tProcess with last_received_sequence_number := 4 } (chunkSeq 1)
      (chunkSeq 2) (chunkSeq 1) (chunkSeq 2) ⟨1, 7⟩ ⟨2, 7⟩ (by decide)
      (by decide) (by decide) (by decide) (by decide) (by decide) (by decide)
      (by decide) (by decide) (by decide)).2 (by decide)).1⟩

/-- C5: once the transport is in `ProcessMessages`, no HELLO is ever
accepted again: any non-chunk message (in particular a second `Hello`) makes
the read loop finish the transport with `BadCommunicationError`, and no
single read-loop step from `ProcessMessages` can bring the state back to
`WaitingHello`. -/
theorem no_hello_accepted_after_process_messages (env : ChunkEnv)
    (t : TcpTransport) (m : Message)
    (hstate : t.transport_state = TransportState.ProcessMessages) :
    (m.is_chunk = false →
       read_loop_handle env t m =
         StepOutcome.next (t.finish StatusCode.BadCommunicationError) [] ∧
       (t.finish StatusCode.BadCommunicationError).transport_state =
         TransportState.Finished StatusCode.BadCommunicationError) ∧
    (∀ t1 sent, read_loop_handle env t m = StepOutcome.next t1 sent →
       t1.transport_state ≠ TransportState.WaitingHello) := by
  have hnf : t.is_finished = false := by simp [TcpTransport.is_finished, hstate]
  have hfin : ∀ c : StatusCode,
      (t.finish c).transport_state = TransportState.Finished c := by
    intro c; simp [TcpTransport.finish, hnf]
  constructor
  · intro hnc
    cases m with
    | MessageChunk c => simp [Message.is_chunk] at hnc
    | Hello h => exact ⟨by simp [read_loop_handle, hstate], hfin _⟩
    | Acknowledge a => exact ⟨by simp [read_loop_handle, hstate], hfin _⟩
    | ErrorMessage c r => exact ⟨by simp [read_loop_handle, hstate], hfin _⟩
  · intro t1 sent hstep
    cases m with
    | Hello h =>
      simp [read_loop_handle, hstate] at hstep
      obtain ⟨h1, _⟩ := hstep
      rw [← h1, hfin _]
      simp
    | Acknowledge a =>
      simp [read_loop_handle, hstate] at hstep
      obtain ⟨h1, _⟩ := hstep
      rw [← h1, hfin _]
      simp
    | ErrorMessage c r =>
      simp [read_loop_handle, hstate] at hstep
      obtain ⟨h1, _⟩ := hstep
      rw [← h1, hfin _]
      simp
    | MessageChunk c =>
      cases hpc : process_chunk env t c with
      | ok t2 s2 =>
        simp [read_loop_handle, hstate, hpc] at hstep
        obtain ⟨h1, _⟩ := hstep
        have hts := ((process_chunk_invariants env t c).1 t2 s2 hpc).1
        rw [← h1, hts, hstate]
        simp
      | err t2 e =>
        simp [read_loop_handle, hstate, hpc] at hstep
        obtain ⟨h1, _⟩ := hstep
        have hts := (process_chunk_invariants env t c).2 t2 e hpc
        have hnf2 : t2.is_finished = false := by
          simp [TcpTransport.is_finished, hts, hstate]
        by_cases hb : e.is_bad = true
        · rw [← h1]
          simp [hb, TcpTransport.finish, hnf2]
        · rw [Bool.not_eq_true] at hb
          rw [← h1]
          simp [hb, hts, hstate]
      | panicked =>
        simp [read_loop_handle, hstate, hpc] at hstep

/-- C5 witness: a second HELLO arriving in `ProcessMessages` finishes the
transport with `BadCommunicationError`. -/
theorem no_hello_accepted_witness :
    read_loop_handle envW tProcess (Message.Hello helloW) =
      StepOutcome.next (tProcess.finish StatusCode.BadCommunicationError) [] ∧
    (tProcess.finish StatusCode.BadCommunicationError).transport_state =
      TransportState.Finished StatusCode.BadCommunicationError :=
  (no_hello_accepted_after_process_messages envW tProcess
    (Message.Hello helloW) (by decide)).1 (by decide)

/-- C7: the read path enqueues at most one write-channel entry per accepted
chunk; in particular, when the chunk is a `MSG` and the message handler
returns `None`, `process_chunk` returns `Ok` and enqueues nothing. -/
theorem read_path_at_most_one_response (env : ChunkEnv) (t : TcpTransport)
    (chunk : MessageChunk) (t1 : TcpTransport) (sent : List WriteEntry)
    (hok : process_chunk env t chunk = ChunkOutcome.ok t1 sent) :
    sent.length ≤ 1 ∧
    (chunk.header_valid = true →
     chunk.message_type = MessageChunkType.Message →
     (∀ rid req, env.handle_message rid req = Except.ok none) →
     sent = []) := by
  refine ⟨((process_chunk_invariants env t chunk).1 t1 sent hok).2, ?_⟩
  intro hhv hmt hnone
  cases hf : chunk.is_final with
  | Intermediate =>
    simp [process_chunk, MessageChunk.message_header, hhv, hf] at hok
  | FinalError =>
    simp [process_chunk, MessageChunk.message_header, hhv, hf] at hok
    exact hok.2
  | Final =>
    cases hv : env.verify_and_remove_security chunk with
    | error e =>
      simp [process_chunk, MessageChunk.message_header, hhv, hf, hv] at hok
    | ok v =>
      cases hi : env.chunk_info v with
      | error e =>
        simp [process_chunk, MessageChunk.message_header, hhv, hf, hv, hi] at hok
      | ok info =>
        cases hturn : turn_received_chunks_into_message env t [v] with
        | mk t2 r =>
          cases r with
          | error e =>
            simp [process_chunk, MessageChunk.message_header, hhv, hf, hv, hi,
                  hturn] at hok
          | ok request =>
            simp [process_chunk, MessageChunk.message_header, hhv, hf, hv, hi,
                  hturn, hmt, hnone] at hok
            exact hok.2

/-- C7 witness: a handled `MSG` chunk yields one response entry, a retained
one yields none. -/
theorem read_path_at_most_one_response_witness :
    ([((7 : Nat), SupportedMessage.Response 3)] : List WriteEntry).length ≤ 1 ∧
    ([] : List WriteEntry) = [] :=
  ⟨(read_path_at_most_one_response
      { envW with handle_message := fun _ _ =>
          Except.ok (some (SupportedMessage.Response 3)) }
      tProcess (chunkSeq 1)
      { tProcess with last_received_sequence_number := 1 }
      [((7 : Nat), SupportedMessage.Response 3)] (by decide)).1,
   (read_path_at_most_one_response envW tProcess (chunkSeq 1)
      { tProcess with last_received_sequence_number := 1 } [] (by decide)).2
      (by decide) (by decide) (fun _ _ => rfl)⟩

/-- C8 amended witness: the terminating path at a concrete transport. -/
theorem finish_emits_no_error_frame_witness :
    (read_loop_on_error tProcess StatusCode.BadSequenceNumberInvalid).1.transport_state =
      TransportState.Finished StatusCode.BadSequenceNumberInvalid ∧
    (read_loop_on_error tProcess StatusCode.BadSequenceNumberInvalid).1.session_terminated =
      true ∧
    (read_loop_on_error tProcess StatusCode.BadSequenceNumberInvalid).2 = [] :=
  finish_emits_no_error_frame tProcess StatusCode.BadSequenceNumberInvalid
    (by decide) (by decide)

end OpcUa

